import Mathlib

/-!
Verification development for the GroundHog farm-monitoring dashboard.

The file shallowly embeds the sensor-data aggregation and derived-estimate
pipeline of the repository: the two aggregators
(calculateSpecificAverages in src/components/ChemicalAnalysisDialog.tsx and
calculateSensorAverages in src/components/AIAnalysisBox.tsx), the
nutrient-prediction request builders (fetchChemicalPrediction and the demo
flow requestMLPrediction in src/app/demo/page.tsx), the chemical-estimate
persistence row builder, the language-model path callOpenAI, the
analysis pipeline runAnalysis, the MQTT status handlers of the demo page,
and its inbound-message handler.

JavaScript numbers are modelled as rationals; optional record fields are
modelled by an explicit value type distinguishing undefined, null and
numeric values, because the two aggregators test for them differently.
-/

namespace GroundHog

/-- A JavaScript value held by an optional sensor field of a row coming from
the store or the broker: `undefined` (the field is absent), `null`,
or a number. -/
inductive JField where
  | undef
  | jnull
  | num (q : ℚ)
deriving DecidableEq, Repr

/-- Models `typeof value === "number"` on a field value
(ChemicalAnalysisDialog.tsx line 261). -/
def JField.isNumber : JField → Bool
  | .num _ => true
  | _ => false

/-- Models `value !== undefined` on a field value
(AIAnalysisBox.tsx lines 196, 200, 204, 208). -/
def JField.isDefined : JField → Bool
  | .undef => false
  | _ => true

/-- Numeric coercion applied by `totals.x += point.x` when the guard
`point.x !== undefined` has passed: a number stays itself and `null`
coerces to 0 (JavaScript ToNumber). The `undef` branch is unreachable
under that guard. -/
def JField.toNum : JField → ℚ
  | .num q => q
  | _ => 0

/-- The sensor fields of a RoverPoint row (src/lib/types.ts): the four
optional numeric readings the aggregators look at. The always-present
columns (id, farm_id, created_at, lat, long) play no role in either
aggregator and are omitted. -/
structure RoverPoint where
  moisture : JField := .undef
  temperature : JField := .undef
  pH : JField := .undef
  EC : JField := .undef
deriving DecidableEq, Repr

/-- The values a field contributes in calculateSpecificAverages: the loop
adds `value` and bumps the count exactly when `typeof value === "number"`
(ChemicalAnalysisDialog.tsx lines 258-270). -/
def definedNums (f : RoverPoint → JField) : List RoverPoint → List ℚ :=
  List.filterMap fun p =>
    match f p with
    | .num q => some q
    | _ => none

/-- The values a field contributes in calculateSensorAverages: the loop
adds `point.x` and bumps the count exactly when `point.x !== undefined`
(AIAnalysisBox.tsx lines 195-212), so a `null` field is counted and adds 0
to the total. -/
def countedNums (f : RoverPoint → JField) : List RoverPoint → List ℚ :=
  List.filterMap fun p =>
    match f p with
    | .undef => none
    | v => some v.toNum

/-- JavaScript Number.prototype.toFixed(2) followed by Number(...):
decimal rounding to two places, an exact tie picking the larger candidate
numerator (ChemicalAnalysisDialog.tsx lines 282-285 wrap every output
field in `Number((x).toFixed(2))`; the pipeline only ever rounds
nonnegative sensor means, where every reading of the tie rule agrees). -/
def toFixed2 (q : ℚ) : ℚ := ⌊q * 100 + 1 / 2⌋ / 100

/-- One step of the accumulation loop of calculateSpecificAverages on one
numeric field value (ChemicalAnalysisDialog.tsx lines 261-267): the
re-initialization guard `if (!totals[field])` is a truthiness test, so
whenever the running total is absent or exactly 0 it resets both the
total (0 to 0, leaving the running sum unchanged) and the count (to 0)
before the value is added and the count incremented. State: (running
total, count). -/
def specificStep (tc : ℚ × ℕ) (v : ℚ) : ℚ × ℕ :=
  (tc.1 + v, (if tc.1 = 0 then 0 else tc.2) + 1)

/-- The totals/counts pair of one field after the forEach loop of
calculateSpecificAverages (ChemicalAnalysisDialog.tsx lines 258-270).
The initial absent entries behave exactly like a zero total under the
truthy guard, so the fold starts at (0, 0). -/
def specificTotals (points : List RoverPoint) (f : RoverPoint → JField) : ℚ × ℕ :=
  (definedNums f points).foldl specificStep (0, 0)

/-- The `averages[field]` map of calculateSpecificAverages: present with
value totals/counts exactly when the count is positive
(ChemicalAnalysisDialog.tsx lines 272-277); the count is positive exactly
when some record contributed, since the loop body ends in `counts++`. -/
def jsNumAvg (points : List RoverPoint) (f : RoverPoint → JField) : Option ℚ :=
  if (specificTotals points f).2 = 0 then none
  else some ((specificTotals points f).1 / ((specificTotals points f).2 : ℚ))

/-- No nonempty proper prefix of the values sums to exactly 0: under this
condition the truthy re-initialization of specificStep can fire only
before the first value, so totals/counts degenerate to plain sum and
length. -/
def noZeroPrefix (vals : List ℚ) : Prop :=
  ∀ k : ℕ, 0 < k → k < vals.length → (vals.take k).sum ≠ 0

/-- One output field of calculateSpecificAverages:
`Number((averages.x || 0).toFixed(2))` (ChemicalAnalysisDialog.tsx
lines 282-285). A missing entry reads as undefined, which `|| 0` turns
into 0; a present mean of 0 also yields 0, so `Option.getD 0` is exact. -/
def specificField (points : List RoverPoint) (f : RoverPoint → JField) : ℚ :=
  toFixed2 ((jsNumAvg points f).getD 0)

/-- The record returned by calculateSpecificAverages on a nonempty input
(ChemicalAnalysisDialog.tsx lines 279-286); the `date` string field is
omitted as it is copied verbatim from the UI selection. -/
structure SpecificAverages where
  pointCount : ℕ
  temperature : ℚ
  ph : ℚ
  ec : ℚ
  humidity : ℚ
deriving DecidableEq, Repr

/-- calculateSpecificAverages (ChemicalAnalysisDialog.tsx lines 249-287):
returns null on an empty point list (line 250), otherwise the four
per-field means over defined numbers, each rounded via toFixed(2). -/
def calculateSpecificAverages (points : List RoverPoint) : Option SpecificAverages :=
  if points.isEmpty then none
  else some
    { pointCount := points.length
      temperature := specificField points RoverPoint.temperature
      ph := specificField points RoverPoint.pH
      ec := specificField points RoverPoint.EC
      humidity := specificField points RoverPoint.moisture }

/-- One output field of calculateSensorAverages:
`counts.x > 0 ? totals.x / counts.x : 0` (AIAnalysisBox.tsx lines 215-219). -/
def sensorField (points : List RoverPoint) (f : RoverPoint → JField) : ℚ :=
  let vals := countedNums f points
  if vals.length = 0 then 0 else vals.sum / vals.length

/-- The record returned by calculateSensorAverages
(AIAnalysisBox.tsx lines 214-220). -/
structure SensorAverages where
  pH : ℚ
  EC : ℚ
  temperature_c : ℚ
  moisture_pct : ℚ
deriving DecidableEq, Repr

/-- calculateSensorAverages (AIAnalysisBox.tsx lines 191-221). -/
def calculateSensorAverages (points : List RoverPoint) : SensorAverages :=
  { pH := sensorField points RoverPoint.pH
    EC := sensorField points RoverPoint.EC
    temperature_c := sensorField points RoverPoint.temperature
    moisture_pct := sensorField points RoverPoint.moisture }

/-- The mean in the words of the specification: the arithmetic mean over
only the records in which the field is a defined number, and 0 when no
record contributes. Stated independently of the source to compare the two
aggregators against it. -/
def specFieldMean (points : List RoverPoint) (f : RoverPoint → JField) : ℚ :=
  let vals := definedNums f points
  if vals.length = 0 then 0 else vals.sum / vals.length

/-- On points whose field is never null, the two contribution notions
coincide. -/
lemma countedNums_eq_definedNums (f : RoverPoint → JField) :
    ∀ points : List RoverPoint, (∀ p ∈ points, f p ≠ .jnull) →
      countedNums f points = definedNums f points := by
  intro points
  induction points with
  | nil => intro _; rfl
  | cons p rest ih =>
    intro h
    have hp := h p (List.mem_cons_self p rest)
    have hrest := ih fun q hq => h q (List.mem_cons_of_mem p hq)
    cases hv : f p with
    | undef => simp [countedNums, definedNums, hv] at hrest ⊢; exact hrest
    | jnull => exact absurd hv hp
    | num q =>
      simp [countedNums, definedNums, hv, JField.toNum] at hrest ⊢; exact hrest

/-- Under the no-null assumption the language-model aggregator field equals
the specification mean. -/
lemma sensorField_eq_specFieldMean (points : List RoverPoint) (f : RoverPoint → JField)
    (h : ∀ p ∈ points, f p ≠ .jnull) :
    sensorField points f = specFieldMean points f := by
  unfold sensorField specFieldMean
  rw [countedNums_eq_definedNums f points h]

/-- The running total of the accumulation loop is the plain sum: the
truthy re-initialization only ever overwrites a zero total with 0. -/
lemma specificStep_foldl_fst (vals : List ℚ) :
    ∀ t : ℚ, ∀ c : ℕ, (vals.foldl specificStep (t, c)).1 = t + vals.sum := by
  induction vals with
  | nil => intro t c; simp
  | cons v rest ih =>
    intro t c
    simp only [List.foldl_cons, List.sum_cons, specificStep, ih]
    ring

/-- When no nonempty proper prefix sums to 0, the count is never reset
after the first value, so the loop degenerates to plain sum and length. -/
lemma specificStep_foldl_eq (vals : List ℚ) (h : noZeroPrefix vals) :
    vals.foldl specificStep (0, 0) = (vals.sum, vals.length) := by
  induction vals using List.reverseRecOn with
  | nil => simp
  | append_singleton l x ih =>
    rw [List.foldl_append]
    have hl : noZeroPrefix l := by
      intro k hk1 hk2
      have hk2x : k < (l ++ [x]).length := by simp; omega
      have hx := h k hk1 hk2x
      rwa [List.take_append_of_le_length (le_of_lt hk2)] at hx
    rw [ih hl]
    rcases eq_or_ne l [] with hl0 | hl0
    · subst hl0; simp [specificStep]
    · have hsum : l.sum ≠ 0 := by
        have hlt : l.length < (l ++ [x]).length := by simp
        have hx := h l.length (List.length_pos.mpr hl0) hlt
        rwa [List.take_left] at hx
      simp [specificStep, hsum]

/-- The dialog aggregator field is the specification mean rounded to two
decimal places, provided no nonempty proper prefix of the field's numeric
readings sums to exactly 0 (otherwise the truthy re-initialization drops
the earlier readings from the count). -/
lemma specificField_eq_toFixed2_specFieldMean (points : List RoverPoint)
    (f : RoverPoint → JField) (h : noZeroPrefix (definedNums f points)) :
    specificField points f = toFixed2 (specFieldMean points f) := by
  unfold specificField jsNumAvg specificTotals specFieldMean
  rw [specificStep_foldl_eq (definedNums f points) h]
  by_cases h0 : (definedNums f points).length = 0 <;> simp [h0]

/-- When a field is never a number, its defined-number contributions are
empty. -/
lemma definedNums_eq_nil (f : RoverPoint → JField) :
    ∀ points : List RoverPoint, (∀ p ∈ points, (f p).isNumber = false) →
      definedNums f points = [] := by
  intro points
  induction points with
  | nil => intro _; rfl
  | cons p rest ih =>
    intro h
    have hp := h p (List.mem_cons_self p rest)
    have hrest := ih fun q hq => h q (List.mem_cons_of_mem p hq)
    cases hv : f p with
    | undef => simp [definedNums, hv] at hrest ⊢; exact hrest
    | jnull => simp [definedNums, hv] at hrest ⊢; exact hrest
    | num q => rw [hv] at hp; simp [JField.isNumber] at hp

/-- When a field is never a number, the counted contributions (which may
include nulls) all equal 0, so their sum is 0. -/
lemma countedNums_sum_eq_zero (f : RoverPoint → JField) :
    ∀ points : List RoverPoint, (∀ p ∈ points, (f p).isNumber = false) →
      (countedNums f points).sum = 0 := by
  intro points
  induction points with
  | nil => intro _; rfl
  | cons p rest ih =>
    intro h
    have hp := h p (List.mem_cons_self p rest)
    have hrest := ih fun q hq => h q (List.mem_cons_of_mem p hq)
    cases hv : f p with
    | undef => simp [countedNums, hv] at hrest ⊢; exact hrest
    | jnull => simp [countedNums, hv, JField.toNum] at hrest ⊢; exact hrest
    | num q => rw [hv] at hp; simp [JField.isNumber] at hp

lemma toFixed2_zero : toFixed2 0 = 0 := by norm_num [toFixed2]

lemma sensorField_eq_zero (points : List RoverPoint) (f : RoverPoint → JField)
    (h : ∀ p ∈ points, (f p).isNumber = false) : sensorField points f = 0 := by
  unfold sensorField
  by_cases hl : (countedNums f points).length = 0
  · simp [hl]
  · simp [hl, countedNums_sum_eq_zero f points h]

lemma specificField_eq_zero (points : List RoverPoint) (f : RoverPoint → JField)
    (h : ∀ p ∈ points, (f p).isNumber = false) : specificField points f = 0 := by
  unfold specificField jsNumAvg specificTotals
  simp [definedNums_eq_nil f points h, toFixed2_zero]

/-- C1 fails on the code as stated: (i) calculateSensorAverages counts a
null-valued field in the denominator (the guard is `!== undefined`, not
`typeof === "number"`), so on a null pH plus a pH of 7 it returns 3.5
where the mean over defined numbers is 7; (ii) calculateSpecificAverages
rounds each mean to two decimal places via toFixed(2), so moisture
readings 1, 1, 0 yield 0.67 where the mean is 2/3; (iii) the truthy
re-initialization `if (!totals[field])` resets the count whenever the
running total is exactly 0, so moisture readings 0 then 4 yield 4 where
the mean is 2. -/
theorem C1_counterexample :
    (calculateSensorAverages [{ pH := .jnull }, { pH := .num 7 }]).pH = 7 / 2
    ∧ specFieldMean [{ pH := .jnull }, { pH := .num 7 }] RoverPoint.pH = 7
    ∧ ((7 : ℚ) / 2 ≠ 7)
    ∧ calculateSpecificAverages
        [{ moisture := .num 1 }, { moisture := .num 1 }, { moisture := .num 0 }]
        = some ⟨3, 0, 0, 0, 67 / 100⟩
    ∧ specFieldMean
        [{ moisture := .num 1 }, { moisture := .num 1 }, { moisture := .num 0 }]
        RoverPoint.moisture = 2 / 3
    ∧ ((67 : ℚ) / 100 ≠ 2 / 3)
    ∧ calculateSpecificAverages [{ moisture := .num 0 }, { moisture := .num 4 }]
        = some ⟨2, 0, 0, 0, 4⟩
    ∧ specFieldMean [{ moisture := .num 0 }, { moisture := .num 4 }]
        RoverPoint.moisture = 2
    ∧ ((4 : ℚ) ≠ 2) := by
  refine ⟨?_, ?_, by norm_num, ?_, ?_, by norm_num, ?_, ?_, by norm_num⟩ <;>
    norm_num [calculateSensorAverages, sensorField, countedNums, JField.toNum,
      calculateSpecificAverages, specificField, jsNumAvg, specificTotals,
      specificStep, definedNums, toFixed2, specFieldMean, List.filterMap]

/-- C1 as amended: for records whose fields are never null,
calculateSensorAverages returns exactly the per-field arithmetic mean over
the records defining that field (0 when none); calculateSpecificAverages,
on a nonempty record list on which no nonempty proper prefix of any
field's numeric readings sums to exactly 0 (so the truthy
re-initialization of the count cannot fire mid-run), returns that mean
additionally rounded to two decimal places by toFixed(2). -/
theorem C1_amended_means (points : List RoverPoint) :
    ((∀ p ∈ points, p.moisture ≠ .jnull ∧ p.temperature ≠ .jnull
        ∧ p.pH ≠ .jnull ∧ p.EC ≠ .jnull) →
      calculateSensorAverages points =
        ⟨specFieldMean points RoverPoint.pH, specFieldMean points RoverPoint.EC,
          specFieldMean points RoverPoint.temperature,
          specFieldMean points RoverPoint.moisture⟩)
    ∧ (points ≠ [] →
      noZeroPrefix (definedNums RoverPoint.temperature points) →
      noZeroPrefix (definedNums RoverPoint.pH points) →
      noZeroPrefix (definedNums RoverPoint.EC points) →
      noZeroPrefix (definedNums RoverPoint.moisture points) →
      calculateSpecificAverages points =
        some ⟨points.length,
          toFixed2 (specFieldMean points RoverPoint.temperature),
          toFixed2 (specFieldMean points RoverPoint.pH),
          toFixed2 (specFieldMean points RoverPoint.EC),
          toFixed2 (specFieldMean points RoverPoint.moisture)⟩) := by
  constructor
  · intro h
    unfold calculateSensorAverages
    rw [sensorField_eq_specFieldMean points RoverPoint.pH fun p hp => (h p hp).2.2.1,
      sensorField_eq_specFieldMean points RoverPoint.EC fun p hp => (h p hp).2.2.2,
      sensorField_eq_specFieldMean points RoverPoint.temperature fun p hp => (h p hp).2.1,
      sensorField_eq_specFieldMean points RoverPoint.moisture fun p hp => (h p hp).1]
  · intro h ht hp he hm
    unfold calculateSpecificAverages
    rw [specificField_eq_toFixed2_specFieldMean points RoverPoint.temperature ht,
      specificField_eq_toFixed2_specFieldMean points RoverPoint.pH hp,
      specificField_eq_toFixed2_specFieldMean points RoverPoint.EC he,
      specificField_eq_toFixed2_specFieldMean points RoverPoint.moisture hm]
    simp [List.isEmpty_iff, h]

/-- The aggregator scenario of the specification: moisture readings 10
and 30 and one temperature reading of 20. -/
def scenarioPoints : List RoverPoint :=
  [{ moisture := .num 10 }, { moisture := .num 30 }, { temperature := .num 20 }]

/-- Witness for C1 at the scenario of the specification. -/
theorem C1_witness :
    ((∀ p ∈ scenarioPoints, p.moisture ≠ .jnull ∧ p.temperature ≠ .jnull
        ∧ p.pH ≠ .jnull ∧ p.EC ≠ .jnull)
      ∧ calculateSensorAverages scenarioPoints =
        ⟨specFieldMean scenarioPoints RoverPoint.pH,
          specFieldMean scenarioPoints RoverPoint.EC,
          specFieldMean scenarioPoints RoverPoint.temperature,
          specFieldMean scenarioPoints RoverPoint.moisture⟩)
    ∧ (scenarioPoints ≠ []
      ∧ noZeroPrefix (definedNums RoverPoint.temperature scenarioPoints)
      ∧ noZeroPrefix (definedNums RoverPoint.pH scenarioPoints)
      ∧ noZeroPrefix (definedNums RoverPoint.EC scenarioPoints)
      ∧ noZeroPrefix (definedNums RoverPoint.moisture scenarioPoints)
      ∧ calculateSpecificAverages scenarioPoints =
        some ⟨3,
          toFixed2 (specFieldMean scenarioPoints RoverPoint.temperature),
          toFixed2 (specFieldMean scenarioPoints RoverPoint.pH),
          toFixed2 (specFieldMean scenarioPoints RoverPoint.EC),
          toFixed2 (specFieldMean scenarioPoints RoverPoint.moisture)⟩) := by
  have hnn : ∀ p ∈ scenarioPoints, p.moisture ≠ .jnull ∧ p.temperature ≠ .jnull
      ∧ p.pH ≠ .jnull ∧ p.EC ≠ .jnull := by decide
  have hne : scenarioPoints ≠ [] := by simp [scenarioPoints]
  have hdt : definedNums RoverPoint.temperature scenarioPoints = [20] := by
    norm_num [definedNums, scenarioPoints, List.filterMap]
  have hdp : definedNums RoverPoint.pH scenarioPoints = [] := by
    norm_num [definedNums, scenarioPoints, List.filterMap]
  have hde : definedNums RoverPoint.EC scenarioPoints = [] := by
    norm_num [definedNums, scenarioPoints, List.filterMap]
  have hdm : definedNums RoverPoint.moisture scenarioPoints = [10, 30] := by
    norm_num [definedNums, scenarioPoints, List.filterMap]
  have ht : noZeroPrefix (definedNums RoverPoint.temperature scenarioPoints) := by
    rw [hdt]; intro k hk1 hk2; simp at hk2; omega
  have hp : noZeroPrefix (definedNums RoverPoint.pH scenarioPoints) := by
    rw [hdp]; intro k hk1 hk2; simp at hk2
  have he : noZeroPrefix (definedNums RoverPoint.EC scenarioPoints) := by
    rw [hde]; intro k hk1 hk2; simp at hk2
  have hm : noZeroPrefix (definedNums RoverPoint.moisture scenarioPoints) := by
    rw [hdm]; intro k hk1 hk2
    simp only [List.length_cons, List.length_nil] at hk2
    have hk : k = 1 := by omega
    subst hk
    norm_num
  exact ⟨⟨hnn, (C1_amended_means scenarioPoints).1 hnn⟩,
    hne, ht, hp, he, hm,
    (C1_amended_means scenarioPoints).2 hne ht hp he hm⟩

/-- C2 fails on the code as stated for calculateSpecificAverages: on the
empty record list it returns null (the early return on line 250), not an
all-zero object. -/
theorem C2_counterexample : calculateSpecificAverages [] = none := rfl

/-- C2 as amended: a target field with no defined-number record maps to 0
in the output of both aggregators, and the empty record list produces the
all-zero object from calculateSensorAverages; calculateSpecificAverages,
however, returns null (an absent result) on the empty list, and its
zero-default for a contribution-free field is only observable on nonempty
lists. -/
theorem C2_amended_zero_defaults :
    calculateSensorAverages [] = ⟨0, 0, 0, 0⟩
    ∧ calculateSpecificAverages [] = none
    ∧ (∀ points : List RoverPoint,
        ((∀ p ∈ points, (p.pH).isNumber = false) →
          (calculateSensorAverages points).pH = 0)
        ∧ ((∀ p ∈ points, (p.EC).isNumber = false) →
          (calculateSensorAverages points).EC = 0)
        ∧ ((∀ p ∈ points, (p.temperature).isNumber = false) →
          (calculateSensorAverages points).temperature_c = 0)
        ∧ ((∀ p ∈ points, (p.moisture).isNumber = false) →
          (calculateSensorAverages points).moisture_pct = 0))
    ∧ (∀ points : List RoverPoint, ∀ r : SpecificAverages,
        calculateSpecificAverages points = some r →
        ((∀ p ∈ points, (p.pH).isNumber = false) → r.ph = 0)
        ∧ ((∀ p ∈ points, (p.EC).isNumber = false) → r.ec = 0)
        ∧ ((∀ p ∈ points, (p.temperature).isNumber = false) → r.temperature = 0)
        ∧ ((∀ p ∈ points, (p.moisture).isNumber = false) → r.humidity = 0)) := by
  refine ⟨by norm_num [calculateSensorAverages, sensorField, countedNums], rfl, ?_, ?_⟩
  · intro points
    exact ⟨fun h => sensorField_eq_zero points RoverPoint.pH h,
      fun h => sensorField_eq_zero points RoverPoint.EC h,
      fun h => sensorField_eq_zero points RoverPoint.temperature h,
      fun h => sensorField_eq_zero points RoverPoint.moisture h⟩
  · intro points r hr
    unfold calculateSpecificAverages at hr
    by_cases hp : points.isEmpty
    · simp [hp] at hr
    · rw [if_neg hp, Option.some.injEq] at hr
      subst hr
      exact ⟨fun h => specificField_eq_zero points RoverPoint.pH h,
        fun h => specificField_eq_zero points RoverPoint.EC h,
        fun h => specificField_eq_zero points RoverPoint.temperature h,
        fun h => specificField_eq_zero points RoverPoint.moisture h⟩

/-- Witness for C2 at a one-record list whose pH is null and a
moisture-only record list for the dialog variant. -/
theorem C2_witness :
    ((∀ p ∈ ([{ pH := .jnull }] : List RoverPoint), (p.pH).isNumber = false)
      ∧ (calculateSensorAverages [{ pH := .jnull }]).pH = 0)
    ∧ (calculateSpecificAverages [{ moisture := .num 5 }] =
        some ⟨1, 0, 0, 0, 5⟩
      ∧ (∀ p ∈ ([{ moisture := .num 5 }] : List RoverPoint), (p.pH).isNumber = false)
      ∧ (5 : ℚ) = 5
      ∧ SpecificAverages.ph ⟨1, 0, 0, 0, 5⟩ = 0) :=
  ⟨⟨by decide, (C2_amended_zero_defaults.2.2.1 [{ pH := .jnull }]).1 (by decide)⟩,
   by
    have hs : calculateSpecificAverages [{ moisture := .num 5 }] =
        some ⟨1, 0, 0, 0, 5⟩ := by
      norm_num [calculateSpecificAverages, specificField, jsNumAvg, specificTotals,
        specificStep, definedNums, toFixed2, List.filterMap]
    exact ⟨hs, by decide, rfl,
      (C2_amended_zero_defaults.2.2.2 [{ moisture := .num 5 }] ⟨1, 0, 0, 0, 5⟩ hs).1
        (by decide)⟩⟩

/-- The JSON body of a POST to the nutrient prediction endpoint /predict:
the keys temp, moisture, ec, pH. -/
structure PredictRequest where
  temp : ℚ
  moisture : ℚ
  ec : ℚ
  pH : ℚ
deriving DecidableEq, Repr

/-- The request body built by fetchChemicalPrediction
(ChemicalAnalysisDialog.tsx lines 182-187): each field is copied from the
aggregated averages unchanged; in particular moisture is
`averages.humidity`, the raw aggregated moisture mean, with no division
by 100. -/
def fetchPredictionBody (averages : SpecificAverages) : PredictRequest :=
  { temp := averages.temperature
    moisture := averages.humidity
    ec := averages.ec
    pH := averages.ph }

/-- The current sensor sample of the demo page (the SensorData interface in
src/app/demo/page.tsx lines 46-54); only the four numeric readings feed the
prediction request. -/
structure DemoSensorData where
  temperature : JField := .undef
  humidity : JField := .undef
  EC : JField := .undef
  pH : JField := .undef
deriving DecidableEq, Repr

/-- JavaScript `x || d` on a possibly absent numeric field: the default is
used when the value is undefined, null, or the (falsy) number 0. -/
def jsOrNum (v : JField) (d : ℚ) : ℚ :=
  match v with
  | .num q => if q = 0 then d else q
  | _ => d

/-- The request body built by requestMLPrediction
(src/app/demo/page.tsx lines 129-134): each reading is defaulted when
falsy, and moisture is `(currentSensorData.humidity || 60) / 100`. -/
def demoPredictionBody (s : DemoSensorData) : PredictRequest :=
  { temp := jsOrNum s.temperature 25
    moisture := jsOrNum s.humidity 60 / 100
    ec := jsOrNum s.EC (3 / 2)
    pH := jsOrNum s.pH 7 }

/-- C3 is right about the intended contract but the dialog flow violates
it: with an aggregated moisture mean of 65.4 percent,
fetchChemicalPrediction sends moisture 65.4 while requestMLPrediction,
sending the same reading, converts it to the 0-1 fraction 0.654 that the
endpoint expects (the demo source comments the division with
"Convert percentage to decimal"). -/
theorem C3_dialog_moisture_not_fraction :
    (fetchPredictionBody ⟨3, 221 / 10, 68 / 10, 12 / 10, 654 / 10⟩).moisture = 654 / 10
    ∧ (demoPredictionBody { humidity := .num (654 / 10) }).moisture = 654 / 1000
    ∧ ((654 : ℚ) / 10 ≠ 654 / 1000) := by
  refine ⟨rfl, ?_, by norm_num⟩
  norm_num [demoPredictionBody, jsOrNum]

/-- The eight nutrient fields of the /predict response body
(the ChemicalPredictionResponse interface in ChemicalAnalysisDialog.tsx
lines 29-38). -/
structure PredictionResponse where
  B_ppm : ℚ
  Cu_ppm : ℚ
  Fe_ppm : ℚ
  K_ppm : ℚ
  N_ppm : ℚ
  P_ppm : ℚ
  S_ppm : ℚ
  Zn_ppm : ℚ
deriving DecidableEq, Repr

/-- JavaScript Math.round: the nearest integer, ties rounding toward
positive infinity. -/
def jsRound (q : ℚ) : ℤ := ⌊q + 1 / 2⌋

/-- The chemical-estimate row built and inserted by insertChemicalEstimate
(ChemicalAnalysisDialog.tsx lines 213-225): every stored numeric field is
Math.round of either a response field or an aggregated mean. -/
structure ChemicalEstimateRow where
  farm_id : String
  nitrogen : ℤ
  phosphorus : ℤ
  potassium : ℤ
  ec : ℤ
  sulphur : ℤ
  ph : ℤ
  zinc : ℤ
  iron : ℤ
  boron : ℤ
  copper : ℤ
deriving DecidableEq, Repr

def insertChemicalEstimateRow (farmID : String) (prediction : PredictionResponse)
    (averages : SpecificAverages) : ChemicalEstimateRow :=
  { farm_id := farmID
    nitrogen := jsRound prediction.N_ppm
    phosphorus := jsRound prediction.P_ppm
    potassium := jsRound prediction.K_ppm
    ec := jsRound averages.ec
    sulphur := jsRound prediction.S_ppm
    ph := jsRound averages.ph
    zinc := jsRound prediction.Zn_ppm
    iron := jsRound prediction.Fe_ppm
    boron := jsRound prediction.B_ppm
    copper := jsRound prediction.Cu_ppm }

/-- C4 confirmed: each of the eight persisted nutrient fields equals the
corresponding response field rounded with Math.round, whose value is the
integer z with q - 1/2 < z ≤ q + 1/2 (nearest integer, ties up); the
scenario N value 45.6 is persisted as 46. -/
theorem C4_nutrients_rounded :
    (∀ (farmID : String) (pred : PredictionResponse) (avgs : SpecificAverages),
      (insertChemicalEstimateRow farmID pred avgs).nitrogen = jsRound pred.N_ppm
      ∧ (insertChemicalEstimateRow farmID pred avgs).phosphorus = jsRound pred.P_ppm
      ∧ (insertChemicalEstimateRow farmID pred avgs).potassium = jsRound pred.K_ppm
      ∧ (insertChemicalEstimateRow farmID pred avgs).copper = jsRound pred.Cu_ppm
      ∧ (insertChemicalEstimateRow farmID pred avgs).iron = jsRound pred.Fe_ppm
      ∧ (insertChemicalEstimateRow farmID pred avgs).zinc = jsRound pred.Zn_ppm
      ∧ (insertChemicalEstimateRow farmID pred avgs).boron = jsRound pred.B_ppm
      ∧ (insertChemicalEstimateRow farmID pred avgs).sulphur = jsRound pred.S_ppm)
    ∧ (∀ q : ℚ, q - 1 / 2 < (jsRound q : ℚ) ∧ (jsRound q : ℚ) ≤ q + 1 / 2)
    ∧ jsRound (456 / 10) = 46 ∧ jsRound (123 / 10) = 12 := by
  refine ⟨fun farmID pred avgs => ⟨rfl, rfl, rfl, rfl, rfl, rfl, rfl, rfl⟩,
    fun q => ?_, by norm_num [jsRound], by norm_num [jsRound]⟩
  have h1 : ((⌊q + 1 / 2⌋ : ℤ) : ℚ) ≤ q + 1 / 2 := Int.floor_le (q + 1 / 2)
  have h2 : q + 1 / 2 < (⌊q + 1 / 2⌋ : ℤ) + 1 := Int.lt_floor_add_one (q + 1 / 2)
  constructor <;> simp only [jsRound] <;> linarith

/-- A JavaScript value as it can appear after JSON.parse, plus the
undefined value produced by reading a missing property. -/
inductive JVal where
  | undefVal
  | jnull
  | jbool (b : Bool)
  | jnum (q : ℚ)
  | jstr (s : String)
  | jarr (xs : List JVal)
  | jobj (fields : List (String × JVal))

/-- JavaScript truthiness of a value (NaN, which no JSON literal denotes,
is not modelled). -/
def JVal.truthy : JVal → Bool
  | .undefVal => false
  | .jnull => false
  | .jbool b => b
  | .jnum q => decide (q ≠ 0)
  | .jstr s => decide (s ≠ "")
  | .jarr _ => true
  | .jobj _ => true

/-- Property read on an object: the stored value, or undefined when the
key is missing. -/
def getField (fields : List (String × JVal)) (k : String) : JVal :=
  ((fields.find? fun kv => kv.1 = k).map fun kv => kv.2).getD .undefVal

/-- JavaScript property access `v[k]`: throws (none) on null or undefined,
yields the field on objects, and undefined on other primitives. -/
def access (v : JVal) (k : String) : Option JVal :=
  match v with
  | .undefVal => none
  | .jnull => none
  | .jobj fields => some (getField fields k)
  | _ => some .undefVal

/-- JavaScript `v || d` on arbitrary values. -/
def jsOrJ (v d : JVal) : JVal := if v.truthy then v else d

/-- The object callOpenAI returns: it is always built with exactly the
three keys summary, todos, status (AIAnalysisBox.tsx lines 308-312 and
316-323), but their values are whatever the model response supplied, so
they are arbitrary JavaScript values here. -/
structure AIOut where
  summary : JVal
  todos : JVal
  status : JVal

/-- The hard-coded fallback object of the catch branch
(AIAnalysisBox.tsx lines 316-323). -/
def fallbackOutput : AIOut :=
  { summary := .jstr "Analysis completed with fallback response"
    todos := .jarr [.jstr "Review soil data manually",
      .jstr "Consider standard soil amendments"]
    status := .jstr "Analysis completed" }

/-- The outcome of the external chat-completion call as callOpenAI
observes it: the request threw, the response had no message content
(`completion.choices[0]?.message?.content` nullish, line 301), or a
content string together with the result of JSON.parse on it (none when
parsing throws). The parser itself is the JavaScript standard library and
is not part of this repository. -/
inductive CompletionOutcome where
  | netError
  | noContent
  | content (parsed : Option JVal)

/-- callOpenAI (AIAnalysisBox.tsx lines 223-325) after the prompt is
built: every failure (thrown request, missing content, unparseable JSON,
and the property read throwing on a null parse result) lands in the catch
branch and yields the fallback object; a successful parse fills the three
keys from the response with per-key `||` defaults and no further
validation. -/
def callOpenAI : CompletionOutcome → AIOut
  | .netError => fallbackOutput
  | .noContent => fallbackOutput
  | .content none => fallbackOutput
  | .content (some p) =>
    match access p "summary", access p "todos", access p "status" with
    | some s, some t, some u =>
      { summary := jsOrJ s (.jstr "Analysis completed")
        todos := jsOrJ t (.jarr [])
        status := jsOrJ u (.jstr "Analysis completed") }
    | _, _, _ => fallbackOutput

/-- The todos bound the claim states: an array of at most 3 strings. -/
def todosWithinLimit (o : AIOut) : Bool :=
  match o.todos with
  | .jarr xs => decide (xs.length ≤ 3) && xs.all fun x =>
      match x with
      | .jstr _ => true
      | _ => false
  | _ => false

/-- C5 fails on the code as stated: a model response that parses to an
object whose todos array has four strings is passed through unclamped
(`parsedResponse.todos || []` performs no length or type validation), so
the result violates the claimed bound of at most 3 todos. -/
theorem C5_counterexample :
    callOpenAI (.content (some (.jobj [("summary", .jstr "Soil is fine"),
      ("todos", .jarr [.jstr "a", .jstr "b", .jstr "c", .jstr "d"]),
      ("status", .jstr "ok")]))) =
      { summary := .jstr "Soil is fine"
        todos := .jarr [.jstr "a", .jstr "b", .jstr "c", .jstr "d"]
        status := .jstr "ok" }
    ∧ todosWithinLimit (callOpenAI (.content (some (.jobj
      [("summary", .jstr "Soil is fine"),
       ("todos", .jarr [.jstr "a", .jstr "b", .jstr "c", .jstr "d"]),
       ("status", .jstr "ok")])))) = false := by
  constructor <;> rfl

/-- C5 as amended: callOpenAI is total and always yields an object with
exactly the keys summary, todos and status (the shape of AIOut); a thrown
network call, missing content, unparseable model output, or a null parse
result each produce the hard-coded fallback object; and a parse result
that is an object has each key copied from the response when truthy and
replaced by its per-key default otherwise, with no validation of the
todos type or length. -/
theorem C5_amended_fallbacks :
    callOpenAI .netError = fallbackOutput
    ∧ callOpenAI .noContent = fallbackOutput
    ∧ callOpenAI (.content none) = fallbackOutput
    ∧ callOpenAI (.content (some .jnull)) = fallbackOutput
    ∧ (∀ fields : List (String × JVal),
        callOpenAI (.content (some (.jobj fields))) =
          { summary := jsOrJ (getField fields "summary") (.jstr "Analysis completed")
            todos := jsOrJ (getField fields "todos") (.jarr [])
            status := jsOrJ (getField fields "status") (.jstr "Analysis completed") }) :=
  ⟨rfl, rfl, rfl, rfl, fun _ => rfl⟩

/-- The user-visible messages the chemical-analysis dialog can set
(ChemicalAnalysisDialog.tsx lines 140-144, 200-203, 228-238, 241-245). -/
inductive DialogMsg where
  | insufficientData
  | predictionFailed
  | saveFailed
  | saveSuccess
deriving DecidableEq, Repr

/-- The observable outcome of the fetch to the /predict endpoint: the
request threw (network failure), or an HTTP response arrived with its
`ok` flag and parsed body. -/
inductive FetchOutcome where
  | netFail
  | httpResp (ok : Bool) (body : PredictionResponse)

/-- fetchChemicalPrediction (ChemicalAnalysisDialog.tsx lines 171-206)
reduced to its outcome: a thrown fetch or a non-2xx status (where
`!response.ok` throws into the same catch) logs, sets the failure
message, and returns null; a 2xx response returns its body unchecked.
The first component is the returned value, the second the message set. -/
def fetchChemicalPrediction (outcome : FetchOutcome) :
    Option PredictionResponse × Option DialogMsg :=
  match outcome with
  | .netFail => (none, some .predictionFailed)
  | .httpResp false _ => (none, some .predictionFailed)
  | .httpResp true body => (some body, none)

/-- What one run of runAnalysis did: the prediction requests it issued,
the rows it inserted, and the final dialog message. -/
structure RunState where
  requests : List PredictRequest := []
  inserts : List ChemicalEstimateRow := []
  message : Option DialogMsg := none
deriving DecidableEq, Repr

/-- runAnalysis (ChemicalAnalysisDialog.tsx lines 95-169) over the fetched
rover points, the prediction endpoint (an oracle from request body to
outcome) and the insert outcome: a fetch error returns early; a null
aggregate (empty point list) returns early; an exact zero in any of the
four means sets the insufficient-data message and returns before any
request; otherwise the request is issued and, only when a prediction came
back, the chemical-estimate row is inserted. -/
def runAnalysis (farmID : String) (roverFetch : Except Unit (List RoverPoint))
    (net : PredictRequest → FetchOutcome) (insertOk : Bool) : RunState :=
  match roverFetch with
  | .error _ => {}
  | .ok points =>
    match calculateSpecificAverages points with
    | none => {}
    | some averages =>
      if averages.temperature = 0 ∨ averages.humidity = 0 ∨ averages.ec = 0
          ∨ averages.ph = 0 then
        { message := some .insufficientData }
      else
        match fetchChemicalPrediction (net (fetchPredictionBody averages)) with
        | (none, msg) =>
          { requests := [fetchPredictionBody averages], message := msg }
        | (some p, _) =>
          { requests := [fetchPredictionBody averages]
            inserts := [insertChemicalEstimateRow farmID p averages]
            message := some (if insertOk then .saveSuccess else .saveFailed) }

/-- C6 confirmed: a network failure or non-2xx response makes
fetchChemicalPrediction return null (with the failure message), and when
every issued request fails, runAnalysis inserts nothing. -/
theorem C6_failure_inserts_nothing :
    (∀ b : PredictionResponse,
      fetchChemicalPrediction .netFail = (none, some .predictionFailed)
      ∧ fetchChemicalPrediction (.httpResp false b) = (none, some .predictionFailed))
    ∧ (∀ (farmID : String) (roverFetch : Except Unit (List RoverPoint))
        (net : PredictRequest → FetchOutcome) (insertOk : Bool),
        (∀ req : PredictRequest, (fetchChemicalPrediction (net req)).1 = none) →
        (runAnalysis farmID roverFetch net insertOk).inserts = []) := by
  refine ⟨fun b => ⟨rfl, rfl⟩, ?_⟩
  intro farmID roverFetch net insertOk h
  rcases roverFetch with _ | points
  · rfl
  · cases hc : calculateSpecificAverages points with
    | none => simp [runAnalysis, hc]
    | some averages =>
      by_cases hg : averages.temperature = 0 ∨ averages.humidity = 0
          ∨ averages.ec = 0 ∨ averages.ph = 0
      · simp [runAnalysis, hc, hg]
      · have h1 := h (fetchPredictionBody averages)
        rcases hm : fetchChemicalPrediction (net (fetchPredictionBody averages))
          with ⟨pred, msg⟩
        rw [hm] at h1
        simp only at h1
        subst h1
        simp [runAnalysis, hc, hg, hm]

/-- Witness for C6: a single moisture-and-friends point with an endpoint
that always fails by network error. -/
theorem C6_witness :
    (∀ req : PredictRequest,
      (fetchChemicalPrediction ((fun _ => FetchOutcome.netFail) req)).1 = none)
    ∧ (runAnalysis "groundhog-farm"
        (.ok [{ moisture := .num 50, temperature := .num 21,
                pH := .num 7, EC := .num 1 }])
        (fun _ => FetchOutcome.netFail) true).inserts = [] :=
  ⟨fun _ => rfl,
    C6_failure_inserts_nothing.2 "groundhog-farm"
      (.ok [{ moisture := .num 50, temperature := .num 21,
              pH := .num 7, EC := .num 1 }])
      (fun _ => FetchOutcome.netFail) true (fun _ => rfl)⟩

/-- C10 confirmed: when any of the four aggregated means is exactly 0,
runAnalysis sets the insufficient-data error and stops: it issues no
request to the prediction endpoint and inserts no row, so a genuinely
measured mean of 0 can never produce a chemical estimate. -/
theorem C10_zero_mean_aborts (farmID : String) (points : List RoverPoint)
    (net : PredictRequest → FetchOutcome) (insertOk : Bool)
    (averages : SpecificAverages)
    (hc : calculateSpecificAverages points = some averages)
    (hg : averages.temperature = 0 ∨ averages.humidity = 0 ∨ averages.ec = 0
      ∨ averages.ph = 0) :
    runAnalysis farmID (.ok points) net insertOk =
      { requests := [], inserts := [], message := some .insufficientData } := by
  simp [runAnalysis, hc, hg]

/-- Witness for C10 at a point with a measured temperature mean of 0. -/
theorem C10_witness :
    calculateSpecificAverages
      [{ moisture := .num 50, temperature := .num 0, pH := .num 7, EC := .num 1 }]
      = some ⟨1, 0, 7, 1, 50⟩
    ∧ ((⟨1, 0, 7, 1, 50⟩ : SpecificAverages).temperature = 0
        ∨ (⟨1, 0, 7, 1, 50⟩ : SpecificAverages).humidity = 0
        ∨ (⟨1, 0, 7, 1, 50⟩ : SpecificAverages).ec = 0
        ∨ (⟨1, 0, 7, 1, 50⟩ : SpecificAverages).ph = 0)
    ∧ runAnalysis "groundhog-farm"
        (.ok [{ moisture := .num 50, temperature := .num 0,
                pH := .num 7, EC := .num 1 }])
        (fun _ => FetchOutcome.netFail) true =
      { requests := [], inserts := [], message := some .insufficientData } := by
  have hs : calculateSpecificAverages
      [{ moisture := .num 50, temperature := .num 0, pH := .num 7, EC := .num 1 }]
      = some ⟨1, 0, 7, 1, 50⟩ := by
    norm_num [calculateSpecificAverages, specificField, jsNumAvg, specificTotals,
      specificStep, definedNums, toFixed2, List.filterMap]
  exact ⟨hs, Or.inl rfl,
    C10_zero_mean_aborts "groundhog-farm" _ (fun _ => FetchOutcome.netFail) true
      ⟨1, 0, 7, 1, 50⟩ hs (Or.inl rfl)⟩

/-- The seven predicted nutrient values carried in the input snapshot of an
AI analysis record (AIAnalysisBox.tsx lines 140-148, src/lib/types.ts). -/
structure PredictedNutrients where
  N_ppm : ℚ
  P_ppm : ℚ
  K_ppm : ℚ
  Cu_ppm : ℚ
  Fe_ppm : ℚ
  Zn_ppm : ℚ
  B_ppm : ℚ

/-- The row runNewAnalysis inserts into the ai-analysis table
(AIAnalysisBox.tsx lines 159-168): farm id, the input snapshot, and the
language-model output. -/
structure AIAnalysisRow where
  farm_id : String
  input_sensor : SensorAverages
  input_nutrients : PredictedNutrients
  output_data : AIOut

/-- A stored row: the payload plus the server-assigned identifier and
creation timestamp. -/
structure StoredRow (α : Type) where
  id : ℕ
  created_at : ℕ
  val : α

/-- The slice of the managed store the two estimate pipelines write:
the chemical-estimate and ai-analysis tables, the next fresh row id,
and a strictly increasing creation clock. -/
structure Store where
  chemRows : List (StoredRow ChemicalEstimateRow)
  aiRows : List (StoredRow AIAnalysisRow)
  nextId : ℕ
  clock : ℕ

/-- Modelled from the spec: the managed relational store is external to
this repository; per section 4.4 its insert operation appends one new row
with a server-assigned identifier and creation timestamp and has no
upsert semantics. Both adapters call only `.insert` (ChemicalAnalysisDialog.tsx
line 213, AIAnalysisBox.tsx line 161). -/
def Store.insertChem (s : Store) (row : ChemicalEstimateRow) : Store :=
  { s with
    chemRows := s.chemRows ++ [⟨s.nextId, s.clock, row⟩]
    nextId := s.nextId + 1
    clock := s.clock + 1 }

/-- Modelled from the spec: insert into the ai-analysis table, same
append-only semantics as Store.insertChem. -/
def Store.insertAI (s : Store) (row : AIAnalysisRow) : Store :=
  { s with
    aiRows := s.aiRows ++ [⟨s.nextId, s.clock, row⟩]
    nextId := s.nextId + 1
    clock := s.clock + 1 }

/-- C7 confirmed: both persistence adapters only insert; running either
one twice with the same input appends two rows with distinct identifiers
and distinct timestamps, every pre-existing row of both tables surviving
unchanged as a prefix. -/
theorem C7_append_only (s : Store) (farmID : String) (pred : PredictionResponse)
    (avgs : SpecificAverages) (aiRow : AIAnalysisRow) :
    ((s.insertChem (insertChemicalEstimateRow farmID pred avgs)).insertChem
        (insertChemicalEstimateRow farmID pred avgs)).chemRows =
      s.chemRows ++
        [⟨s.nextId, s.clock, insertChemicalEstimateRow farmID pred avgs⟩,
         ⟨s.nextId + 1, s.clock + 1, insertChemicalEstimateRow farmID pred avgs⟩]
    ∧ s.nextId ≠ s.nextId + 1
    ∧ s.clock ≠ s.clock + 1
    ∧ (((s.insertChem (insertChemicalEstimateRow farmID pred avgs)).insertChem
        (insertChemicalEstimateRow farmID pred avgs)).chemRows.take
          s.chemRows.length = s.chemRows)
    ∧ ((s.insertAI aiRow).insertAI aiRow).aiRows =
      s.aiRows ++ [⟨s.nextId, s.clock, aiRow⟩, ⟨s.nextId + 1, s.clock + 1, aiRow⟩]
    ∧ ((s.insertAI aiRow).insertAI aiRow).aiRows.take s.aiRows.length = s.aiRows := by
  refine ⟨by simp [Store.insertChem], by omega, by omega, ?_, by simp [Store.insertAI], ?_⟩
  · simp [Store.insertChem, List.take_left]
  · simp [Store.insertAI, List.take_left]

/-- The connection status of the telemetry relay
(src/app/demo/page.tsx line 69, src/unnamed/part_001 line 9). -/
inductive MqttStatus where
  | disconnected
  | connecting
  | connected
  | error
deriving DecidableEq, Repr

/-- The events the relay code reacts to: an explicit connectToMqtt call,
the broker connect ack, a subscription error callback, a client error
event, a close event, and a failed dynamic import of the mqtt module
(src/app/demo/page.tsx lines 205-345). -/
inductive MqttEvent where
  | connectCall
  | brokerAck
  | subscribeErr
  | transportError
  | closeEvent
  | importFail
deriving DecidableEq, Repr

/-- The status transition implemented by connectToMqtt and the handlers it
registers: the connect call is a no-op while connected or connecting
(line 206) and otherwise moves to connecting (line 208); each registered
handler sets its status unconditionally: connect ack to connected
(line 217), subscription error to error (lines 223, 233, 243), client
error event to error (line 333), close to disconnected (line 338), import
failure to error (line 344). -/
def mqttStep : MqttStatus → MqttEvent → MqttStatus
  | s, .connectCall => if s = .connected ∨ s = .connecting then s else .connecting
  | _, .brokerAck => .connected
  | _, .subscribeErr => .error
  | _, .transportError => .error
  | _, .closeEvent => .disconnected
  | _, .importFail => .error

/-- C8 fails on the code as stated: the connect-ack handler sets the
status to connected unconditionally, so a broker ack arriving while the
status is error (for example after a subscription error, when the
underlying client reconnects on its own) leaves the error state without
any new connectToMqtt call. -/
theorem C8_counterexample :
    mqttStep .error .brokerAck = .connected
    ∧ mqttStep .error .brokerAck ≠ .error
    ∧ mqttStep .disconnected .brokerAck = .connected := by
  exact ⟨rfl, by decide, rfl⟩

/-- C8 as amended: the status takes only the four listed values; a
connect call while connected or connecting leaves the state unchanged and
otherwise moves to connecting; but the registered handlers are
state-insensitive, so a broker ack moves any state (connecting as claimed,
but also disconnected and error) to connected, a transport error moves any
state to error, and a close event moves any state to disconnected; error
and disconnected are therefore not terminal against broker-generated
events, only against further connect calls. -/
theorem C8_amended_step (s : MqttStatus) :
    mqttStep s .connectCall =
      (if s = .connected ∨ s = .connecting then s else .connecting)
    ∧ mqttStep .connecting .brokerAck = .connected
    ∧ mqttStep s .brokerAck = .connected
    ∧ mqttStep s .transportError = .error
    ∧ mqttStep s .subscribeErr = .error
    ∧ mqttStep s .importFail = .error
    ∧ mqttStep s .closeEvent = .disconnected := by
  cases s <;> exact ⟨rfl, rfl, rfl, rfl, rfl, rfl, rfl⟩

def JVal.isUndef : JVal → Bool
  | .undefVal => true
  | _ => false

/-- JavaScript `Number(x) || 0` as used by the chemical decode
(src/app/demo/page.tsx lines 284-303): numbers pass through (0 stays 0),
null and booleans coerce, and values that coerce to NaN fall to 0.
String-to-number parsing is not modelled (broker payloads carry JSON
numbers); a nonempty numeric string would coerce, an array to its single
element, both unmodelled and irrelevant to the claims below. -/
def jsNumOr0 : JVal → ℚ
  | .jnum q => q
  | .jbool true => 1
  | _ => 0

/-- The object spread `{ ...data, timestamp: now }`
(src/app/demo/page.tsx lines 260-263): every key of data keeps its value
and timestamp is set; spreading a non-object contributes no keys. The
relative key order of an overwritten timestamp key is not preserved by
this model, which no claim observes. -/
def objSet (v : JVal) (k : String) (x : JVal) : JVal :=
  match v with
  | .jobj fields => .jobj ((fields.filter fun kv => kv.1 ≠ k) ++ [(k, x)])
  | _ => .jobj [(k, x)]

/-- Array.prototype.slice(-50): the last 50 elements
(src/app/demo/page.tsx line 269). -/
def slice50 (l : List JVal) : List JVal := l.drop (l.length - 50)

/-- The ChemicalData record of the demo page
(src/app/demo/page.tsx lines 57-66). -/
structure ChemicalData where
  nitrogen : ℚ
  phosphorus : ℚ
  potassium : ℚ
  copper : ℚ
  iron : ℚ
  zinc : ℚ
  boron : ℚ
  created_at : JVal

/-- The demo-format chemical decode (src/app/demo/page.tsx lines 283-292),
used when `data.nitrogen !== undefined`. -/
def decodeChemicalDemo (data : JVal) : ChemicalData :=
  { nitrogen := jsNumOr0 ((access data "nitrogen").getD .undefVal)
    phosphorus := jsNumOr0 ((access data "phosphorus").getD .undefVal)
    potassium := jsNumOr0 ((access data "potassium").getD .undefVal)
    copper := jsNumOr0 ((access data "copper").getD .undefVal)
    iron := jsNumOr0 ((access data "iron").getD .undefVal)
    zinc := jsNumOr0 ((access data "zinc").getD .undefVal)
    boron := jsNumOr0 ((access data "boron").getD .undefVal)
    created_at := (access data "created_at").getD .undefVal }

/-- The API-format chemical decode (src/app/demo/page.tsx lines 296-305),
used when `data.N_ppm !== undefined`. -/
def decodeChemicalApi (data : JVal) : ChemicalData :=
  { nitrogen := jsNumOr0 ((access data "N_ppm").getD .undefVal)
    phosphorus := jsNumOr0 ((access data "P_ppm").getD .undefVal)
    potassium := jsNumOr0 ((access data "K_ppm").getD .undefVal)
    copper := jsNumOr0 ((access data "Cu_ppm").getD .undefVal)
    iron := jsNumOr0 ((access data "Fe_ppm").getD .undefVal)
    zinc := jsNumOr0 ((access data "Zn_ppm").getD .undefVal)
    boron := jsNumOr0 ((access data "B_ppm").getD .undefVal)
    created_at := (access data "created_at").getD .undefVal }

/-- The relay state the demo-page message handler can touch: the rover
location data, the current sensor sample, the sensor history, and the
chemical data (src/app/demo/page.tsx lines 74-90). -/
structure DemoState where
  roverData : JVal
  currentSensorData : JVal
  sensorData : List JVal
  chemicalData : Option ChemicalData

/-- The message handler registered on the client
(src/app/demo/page.tsx lines 251-329), over the topic string and the
result of JSON.parse on the payload (none when parsing throws, which the
surrounding try/catch turns into a log). Returns the new state and the
names of the state setters invoked. A property read throwing inside the
chemical branch (parse result null) is caught by the same try/catch and
also leaves the state unchanged. -/
def handleMessage (st : DemoState) (topic : String) (parsed : Option JVal)
    (now : ℚ) : DemoState × List String :=
  match parsed with
  | none => (st, [])
  | some data =>
    if topic = "jumpstart/rover_location" then
      ({ st with roverData := data }, ["setRoverData"])
    else if topic = "jumpstart/sensor_data" then
      let newSensor := objSet data "timestamp" (.jnum now)
      ({ st with
          currentSensorData := newSensor
          sensorData := slice50 (st.sensorData ++ [newSensor]) },
        ["setCurrentSensorData", "setSensorData"])
    else if topic = "jumpstart/chemical_estimate" then
      match access data "nitrogen" with
      | none => (st, [])
      | some v =>
        if v.isUndef = false then
          ({ st with chemicalData := some (decodeChemicalDemo data) },
            ["setChemicalData"])
        else
          match access data "N_ppm" with
          | none => (st, [])
          | some w =>
            if w.isUndef = false then
              ({ st with chemicalData := some (decodeChemicalApi data) },
                ["setChemicalData"])
            else (st, [])
    else (st, [])

/-- C9 confirmed: a message whose payload fails to parse as JSON, or
whose topic is none of the three recognized topics, leaves every piece of
relay state unchanged and invokes no setter; the handler is total, so no
exception escapes it. -/
theorem C9_unrecognized_dropped (st : DemoState) (topic : String)
    (parsed : Option JVal) (now : ℚ)
    (h : parsed = none
      ∨ (topic ≠ "jumpstart/rover_location" ∧ topic ≠ "jumpstart/sensor_data"
        ∧ topic ≠ "jumpstart/chemical_estimate")) :
    handleMessage st topic parsed now = (st, []) := by
  rcases h with h | ⟨h1, h2, h3⟩
  · rw [h]; rfl
  · cases parsed with
    | none => rfl
    | some data => simp [handleMessage, h1, h2, h3]

/-- Witness for C9: an unrecognized topic with a well-formed JSON object
payload, and separately an unparseable payload on a recognized topic. -/
theorem C9_witness :
    (("jumpstart/unknown_topic" ≠ "jumpstart/rover_location"
        ∧ "jumpstart/unknown_topic" ≠ "jumpstart/sensor_data"
        ∧ "jumpstart/unknown_topic" ≠ "jumpstart/chemical_estimate")
      ∧ handleMessage ⟨.jnull, .jobj [], [], none⟩ "jumpstart/unknown_topic"
          (some (.jobj [("lat", .jnum 7)])) 0 =
        (⟨.jnull, .jobj [], [], none⟩, []))
    ∧ handleMessage ⟨.jnull, .jobj [], [], none⟩ "jumpstart/sensor_data" none 0 =
        (⟨.jnull, .jobj [], [], none⟩, []) :=
  ⟨⟨by refine ⟨?_, ?_, ?_⟩ <;> decide,
    C9_unrecognized_dropped ⟨.jnull, .jobj [], [], none⟩ "jumpstart/unknown_topic"
      (some (.jobj [("lat", .jnum 7)])) 0
      (Or.inr ⟨by decide, by decide, by decide⟩)⟩,
   C9_unrecognized_dropped ⟨.jnull, .jobj [], [], none⟩ "jumpstart/sensor_data"
     none 0 (Or.inl rfl)⟩

end GroundHog
